import Mathlib

/-!
Shallow embedding of russellconstruction9/Customapp (three source files):

* `src/lib/mcp.ts` — a lazily connected, module-level singleton MCP client
  (`getMcpClient`), modelled as explicit state passing over an optional
  cached client plus a trace of connect events.
* `src/components/CloudSync.tsx` — four one-shot cloud operations
  (backup to Drive, export to Sheets, doc report, email report), modelled as
  pure functions from the component's props and an environment (cache state,
  connect outcome, per-call tool outcomes, date strings) to a `RunResult`
  recording the remote events issued, the status messages shown, the
  active-operation flag after the handler finishes, and whether the
  try/catch caught a thrown error.
* `src/unnamed/part_000` (AutomationEditor) — the draft-editing operations on
  an `Automation` value, and a step relation describing the drafts reachable
  through the rendered UI.

JavaScript numbers are modelled as exact rationals.  Where the distinction
between a decimal literal and its IEEE-754 binary64 value matters (the
`toFixed` rounding of `1.005`), the literal is embedded as the exact value of
the nearest binary64 float, which is what the running program holds.
-/

/-- A JSON document, used for the payloads CloudSync builds before
`JSON.stringify`.  Objects keep their key order, as JS objects do. -/
inductive Json where
  | str : String → Json
  | num : ℚ → Json
  | bool : Bool → Json
  | null : Json
  | arr : List Json → Json
  | obj : List (String × Json) → Json

/-- JS `x || 0` for a number `x` (falsy `0` is replaced by `0`, i.e. identity
on our exact rationals; kept so the embedding mirrors
`j.costsData?.finalQuote || 0` in `generateReportContent`). -/
def jsOr0 (x : ℚ) : ℚ := if x = 0 then 0 else x

/-- JS `s || dflt` applied to an optionally-absent string, as in
`customer?.name || 'N/A'`: an absent or empty string falls back. -/
def jsStrOr (o : Option String) (dflt : String) : String :=
  match o with
  | none => dflt
  | some s => if s = "" then dflt else s

/-- Two-digit zero padding for the fractional part of `toFixed(2)`. -/
def pad2 (n : Nat) : String := if n < 10 then "0" ++ toString n else toString n

/-- The integer `n` of ECMAScript `Number.prototype.toFixed(2)` for a
nonnegative argument: the integer with `n / 100` closest to `x`, the larger on
ties, i.e. `⌊100·x + 1/2⌋`. -/
def fixed2Int (x : ℚ) : ℤ := Int.floor (x * 100 + 1 / 2)

/-- The string ECMAScript `x.toFixed(2)` produces (for `|x| < 10^21`,
which covers every value this program formats). -/
def toFixed2Str (x : ℚ) : String :=
  if x < 0 then
    "-" ++ toString ((fixed2Int (-x)).toNat / 100) ++ "."
      ++ pad2 ((fixed2Int (-x)).toNat % 100)
  else
    toString ((fixed2Int x).toNat / 100) ++ "." ++ pad2 ((fixed2Int x).toNat % 100)

/-- The number JS `Number(x.toFixed(2))` yields: the value rounded to two
decimals (nearest, ties away from zero), as `CloudSync` computes for the
`"Open Cell Sets"` and `"Closed Cell Sets"` columns. -/
def toFixed2 (x : ℚ) : ℚ :=
  if x < 0 then -((fixed2Int (-x) : ℚ) / 100) else (fixed2Int x : ℚ) / 100

/-- Modelled from the spec: `CustomerInfo` is declared in
`./EstimatePDF.tsx`, which is not part of this excerpt; the spec describes it
as customer identity/address, and this code reads `id`, `name`, `address`. -/
structure CustomerInfo where
  id : ℚ
  name : String
  address : String

/-- Modelled from the spec: the `costsData` of an `EstimateRecord`
(`../lib/db.ts`, not in this excerpt); this code reads `finalQuote`. -/
structure CostsData where
  finalQuote : ℚ

/-- Modelled from the spec: the `calcData` of an `EstimateRecord`; this code
reads `totalBoardFeetWithWaste`, `ocSets` and `ccSets`. -/
structure CalcData where
  totalBoardFeetWithWaste : ℚ
  ocSets : ℚ
  ccSets : ℚ

/-- Modelled from the spec: `EstimateRecord` (`../lib/db.ts`, not in this
excerpt): a job record with status, costing data, board-feet calculation
data, creation timestamp, estimate number, owning customer, and the three
binary/PDF-bearing fields the backup strips. -/
structure EstimateRecord where
  id : ℚ
  customerId : ℚ
  estimateNumber : String
  status : String
  createdAt : ℚ
  costsData : CostsData
  calcData : CalcData
  estimatePdf : Option String
  materialOrderPdf : Option String
  invoicePdf : Option String

/-- Modelled from the spec: `CompanyInfo` (`./EstimatePDF.tsx`); this code
reads only `email`, through the optional chain `companyInfo?.email`.  `none`
models an absent value; `some ""` an empty one (both falsy). -/
structure CompanyInfo where
  email : Option String

/-- A tool invocation as CloudSync issues it: constructor per argument shape.
`content`/`json_data` strings are recorded as the JSON documents they
serialize; `instructions` fields are fixed text and omitted. -/
inductive ToolCall where
  | createFileFromText (title : String) (content : Json)
  | createSheetFromJson (title : String) (jsonData : Json)
  | createDocFromText (title : String) (content : String)
  | sendEmail (recipient subject body : String)

/-- The `name` argument of `client.callTool` for each call shape. -/
def toolName : ToolCall → String
  | ToolCall.createFileFromText _ _ => "google_drive_create_file_from_text"
  | ToolCall.createSheetFromJson _ _ => "google_sheets_create_spreadsheet_from_json"
  | ToolCall.createDocFromText _ _ => "google_docs_create_document_from_text"
  | ToolCall.sendEmail _ _ _ => "gmail_send_email"

/-- A remote interaction: the MCP `connect` handshake performed inside
`getMcpClient` (carrying the URL it connects through), or a tool call. -/
inductive Event where
  | connect (url : String) : Event
  | call (c : ToolCall) : Event

/-- Is an event a tool invocation (as opposed to the connect handshake)? -/
def Event.isToolCall : Event → Bool
  | Event.connect _ => false
  | Event.call _ => true

/-- A client object's identity (`src/lib/mcp.ts` its `Client`). -/
abbrev Client := Nat

/-- The CORS proxy prefix hardcoded in `src/lib/mcp.ts`. -/
def mcpProxyUrl : String := "https://corsproxy.io/?"

/-- The Zapier MCP server URL hardcoded in `src/lib/mcp.ts`. -/
def mcpServerUrl : String :=
  "https://mcp.zapier.com/api/mcp/s/NmJmMGM1ODMtY2U3NS00NmU5LWE3NTEtYTc1MjA5OTZjNGZmOmQ0NzQyYTcxLWEzYzEtNDlmMy1hZTZjLWE5NjZmZjYwNTQxZQ==/mcp"

/-- The URL `getMcpClient` passes to the transport: proxy prefix ++ server URL. -/
def mcpConnectUrl : String := mcpProxyUrl ++ mcpServerUrl

/-- `getMcpClient` of `src/lib/mcp.ts`, as a state transformer over the
module-level singleton `mcpClient : Option Client`.  `conn` is the outcome of
`await client.connect(transport)` on the freshly constructed client: `some c`
when the connect succeeds (yielding the client object `c`), `none` when it
throws.  Returns (remote events, returned client or `none` on a throw, the
singleton after the call).  The cache is written only after a successful
connect, mirroring the source, where `mcpClient = client` follows the
`await client.connect(transport)` line. -/
def getMcpClient (conn : Option Client) (st : Option Client) :
    List Event × Option Client × Option Client :=
  match st with
  | some c => ([], some c, some c)
  | none =>
    match conn with
    | some c => ([Event.connect mcpConnectUrl], some c, some c)
    | none => ([Event.connect mcpConnectUrl], none, none)

/-- The environment a CloudSync handler runs in: the singleton cache at
entry, the outcome of a connect attempt, the outcome of the k-th
`client.callTool` the handler issues (`true` = resolves, `false` = rejects),
and the date/locale strings the JS runtime would produce. -/
structure Env where
  mcp : Option Client
  connectClient : Option Client
  toolOk : Nat → Bool
  nowStr : String
  todayStr : String
  isoDate : String
  fmtDate : ℚ → String

/-- What one CloudSync handler run did: remote events in order, the status
messages shown in order, the active-operation flag value set while running
(`none` when the handler returned before setting it), the flag after the
handler finished, and whether the catch block ran (a step threw). -/
structure RunResult where
  events : List Event
  statuses : List String
  activeDuring : Option String
  activeAfter : Option String
  errored : Bool

/-- The tool invocations of a run, in order (connect handshakes dropped). -/
def toolCallsOf (r : RunResult) : List ToolCall :=
  r.events.filterMap fun e =>
    match e with
    | Event.call c => some c
    | Event.connect _ => none

/-- The JS object for one customer (order of `CustomerInfo`'s fields), as
`JSON.stringify(customers, null, 2)` serializes it. -/
def customerToObj (c : CustomerInfo) : List (String × Json) :=
  [("id", Json.num c.id), ("name", Json.str c.name), ("address", Json.str c.address)]

/-- The document serialized into the customers backup file. -/
def customersDoc (customers : List CustomerInfo) : Json :=
  Json.arr (customers.map fun c => Json.obj (customerToObj c))

/-- The JS object for one full job record. -/
def jobToObj (j : EstimateRecord) : List (String × Json) :=
  [("id", Json.num j.id),
   ("customerId", Json.num j.customerId),
   ("estimateNumber", Json.str j.estimateNumber),
   ("status", Json.str j.status),
   ("createdAt", Json.num j.createdAt),
   ("costsData", Json.obj [("finalQuote", Json.num j.costsData.finalQuote)]),
   ("calcData", Json.obj
     [("totalBoardFeetWithWaste", Json.num j.calcData.totalBoardFeetWithWaste),
      ("ocSets", Json.num j.calcData.ocSets),
      ("ccSets", Json.num j.calcData.ccSets)]),
   ("estimatePdf", match j.estimatePdf with | some s => Json.str s | none => Json.null),
   ("materialOrderPdf", match j.materialOrderPdf with | some s => Json.str s | none => Json.null),
   ("invoicePdf", match j.invoicePdf with | some s => Json.str s | none => Json.null)]

/-- The rest-object of
`const { estimatePdf, materialOrderPdf, invoicePdf, ...rest } = job`:
the job's fields minus exactly those three keys. -/
def stripJobForBackup (j : EstimateRecord) : List (String × Json) :=
  (jobToObj j).filter fun p =>
    p.1 != "estimatePdf" && p.1 != "materialOrderPdf" && p.1 != "invoicePdf"

/-- The document serialized into the jobs backup file
(`JSON.stringify(jobsForBackup, null, 2)`). -/
def jobsBackupDoc (jobs : List EstimateRecord) : Json :=
  Json.arr ((jobs.map stripJobForBackup).map Json.obj)

/-- `handleBackupToDrive` of `CloudSync.tsx` (lines 40–83): sets the active
flag to `'backup'`, shows "Connecting to server...", acquires the client,
then issues the customers file call and the jobs file call in order; any
throw is caught ("❌ Backup failed. Check console."), and the finally block
clears the active flag on every path. -/
def handleBackupToDrive (customers : List CustomerInfo) (jobs : List EstimateRecord)
    (env : Env) : RunResult :=
  match getMcpClient env.connectClient env.mcp with
  | (ev, none, _) =>
    { events := ev
      statuses := ["Connecting to server...", "❌ Backup failed. Check console."]
      activeDuring := some "backup", activeAfter := none, errored := true }
  | (ev, some _, _) =>
    let call1 := ToolCall.createFileFromText
      ("customers-backup-" ++ env.isoDate ++ ".json") (customersDoc customers)
    if env.toolOk 0 then
      let call2 := ToolCall.createFileFromText
        ("jobs-backup-" ++ env.isoDate ++ ".json") (jobsBackupDoc jobs)
      if env.toolOk 1 then
        { events := ev ++ [Event.call call1, Event.call call2]
          statuses := ["Connecting to server...", "Backing up customers...",
            "Backing up jobs...", "✅ Backup complete!"]
          activeDuring := some "backup", activeAfter := none, errored := false }
      else
        { events := ev ++ [Event.call call1, Event.call call2]
          statuses := ["Connecting to server...", "Backing up customers...",
            "Backing up jobs...", "❌ Backup failed. Check console."]
          activeDuring := some "backup", activeAfter := none, errored := true }
    else
      { events := ev ++ [Event.call call1]
        statuses := ["Connecting to server...", "Backing up customers...",
          "❌ Backup failed. Check console."]
        activeDuring := some "backup", activeAfter := none, errored := true }

/-- One row of the Sheets export (`CloudSync.tsx` lines 92–105): the job
projected to a flat record, with the customer looked up by id and `'N/A'`
fallbacks, set counts rounded through `toFixed(2)`. -/
def jobToSheetRow (customers : List CustomerInfo) (env : Env)
    (job : EstimateRecord) : List (String × Json) :=
  let customer := customers.find? fun c => c.id = job.customerId
  [("Estimate Number", Json.str job.estimateNumber),
   ("Customer Name", Json.str (jsStrOr (customer.map CustomerInfo.name) "N/A")),
   ("Customer Address", Json.str (jsStrOr (customer.map CustomerInfo.address) "N/A")),
   ("Status", Json.str job.status),
   ("Creation Date", Json.str (env.fmtDate job.createdAt)),
   ("Quote Amount", Json.num job.costsData.finalQuote),
   ("Total Board Feet", Json.num job.calcData.totalBoardFeetWithWaste),
   ("Open Cell Sets", Json.num (toFixed2 job.calcData.ocSets)),
   ("Closed Cell Sets", Json.num (toFixed2 job.calcData.ccSets))]

/-- The `dataForSheet` array of `handleExportToSheets`. -/
def dataForSheet (customers : List CustomerInfo) (jobs : List EstimateRecord)
    (env : Env) : List (List (String × Json)) :=
  jobs.map (jobToSheetRow customers env)

/-- `handleExportToSheets` of `CloudSync.tsx` (lines 85–134).  Note the order
of the source: the client is acquired (connecting on first use) before the
empty-list check, so the "No jobs to export." short-circuit runs only after a
successful acquisition. -/
def handleExportToSheets (customers : List CustomerInfo) (jobs : List EstimateRecord)
    (env : Env) : RunResult :=
  match getMcpClient env.connectClient env.mcp with
  | (ev, none, _) =>
    { events := ev
      statuses := ["Connecting to server...", "❌ Export failed. Check console."]
      activeDuring := some "sheets", activeAfter := none, errored := true }
  | (ev, some _, _) =>
    let rows := dataForSheet customers jobs env
    if rows.length = 0 then
      { events := ev
        statuses := ["Connecting to server...", "Preparing data for Sheets...",
          "No jobs to export."]
        activeDuring := some "sheets", activeAfter := none, errored := false }
    else
      let call := ToolCall.createSheetFromJson ("Jobs-Export-" ++ env.isoDate)
        (Json.arr (rows.map Json.obj))
      if env.toolOk 0 then
        { events := ev ++ [Event.call call]
          statuses := ["Connecting to server...", "Preparing data for Sheets...",
            "Creating Google Sheet...", "✅ Export to Sheets complete!"]
          activeDuring := some "sheets", activeAfter := none, errored := false }
      else
        { events := ev ++ [Event.call call]
          statuses := ["Connecting to server...", "Preparing data for Sheets...",
            "Creating Google Sheet...", "❌ Export failed. Check console."]
          activeDuring := some "sheets", activeAfter := none, errored := true }

/-- One line of the "Recent Jobs" section of the report
(`CloudSync.tsx` line 161). -/
def recentJobLine (customers : List CustomerInfo) (job : EstimateRecord) : String :=
  "- " ++ job.estimateNumber ++ " for "
    ++ jsStrOr ((customers.find? fun c => c.id = job.customerId).map CustomerInfo.name) "N/A"
    ++ " - Status: " ++ job.status ++ " - $" ++ toFixed2Str job.costsData.finalQuote

/-- `generateReportContent` of `CloudSync.tsx` (lines 136–164), with the
runtime's `new Date().toLocaleString()` passed in as `now`. -/
def generateReportContent (customers : List CustomerInfo) (jobs : List EstimateRecord)
    (now : String) : String :=
  let totalJobs := jobs.length
  let totalRevenue := (jobs.filter fun j => j.status = "paid").foldl
    (fun sum j => sum + jsOr0 j.costsData.finalQuote) 0
  let outstandingRevenue := (jobs.filter fun j => j.status = "invoiced").foldl
    (fun sum j => sum + jsOr0 j.costsData.finalQuote) 0
  let totalCustomers := customers.length
  "\n# Business Summary Report\n\nGenerated on: " ++ now
    ++ "\n\n## Key Metrics\n- **Total Customers:** " ++ toString totalCustomers
    ++ "\n- **Total Jobs Logged:** " ++ toString totalJobs
    ++ "\n- **Total Revenue (Paid):** $" ++ toFixed2Str totalRevenue
    ++ "\n- **Outstanding A/R (Invoiced):** $" ++ toFixed2Str outstandingRevenue
    ++ "\n\n## Recent Jobs\n"
    ++ String.intercalate "\n" ((jobs.take 5).map (recentJobLine customers))
    ++ "\n        "

/-- `handleCreateDocReport` of `CloudSync.tsx` (lines 166–193). -/
def handleCreateDocReport (customers : List CustomerInfo) (jobs : List EstimateRecord)
    (env : Env) : RunResult :=
  match getMcpClient env.connectClient env.mcp with
  | (ev, none, _) =>
    { events := ev
      statuses := ["Connecting to server...", "❌ Report creation failed."]
      activeDuring := some "docs", activeAfter := none, errored := true }
  | (ev, some _, _) =>
    let call := ToolCall.createDocFromText ("Business-Summary-Report-" ++ env.isoDate)
      (generateReportContent customers jobs env.nowStr)
    if env.toolOk 0 then
      { events := ev ++ [Event.call call]
        statuses := ["Connecting to server...", "Generating report...",
          "Creating Google Doc...", "✅ Report created!"]
        activeDuring := some "docs", activeAfter := none, errored := false }
    else
      { events := ev ++ [Event.call call]
        statuses := ["Connecting to server...", "Generating report...",
          "Creating Google Doc...", "❌ Report creation failed."]
        activeDuring := some "docs", activeAfter := none, errored := true }

/-- The guard `!companyInfo?.email`: true when the email is absent or the
empty string (both falsy). -/
def jsFalsyEmail (ci : CompanyInfo) : Bool :=
  match ci.email with
  | none => true
  | some s => s == ""

/-- `handleEmailReport` of `CloudSync.tsx` (lines 195–227).  The email guard
runs before the active flag is set and before any client acquisition. -/
def handleEmailReport (customers : List CustomerInfo) (jobs : List EstimateRecord)
    (ci : CompanyInfo) (env : Env) : RunResult :=
  if jsFalsyEmail ci then
    { events := []
      statuses := ["Company email not set in settings."]
      activeDuring := none, activeAfter := none, errored := false }
  else
    match getMcpClient env.connectClient env.mcp with
    | (ev, none, _) =>
      { events := ev
        statuses := ["Connecting to server...", "❌ Failed to send email."]
        activeDuring := some "email", activeAfter := none, errored := true }
    | (ev, some _, _) =>
      let body := generateReportContent customers jobs env.nowStr
      let call := ToolCall.sendEmail (ci.email.getD "")
        ("Business Summary Report - " ++ env.todayStr) body
      if env.toolOk 0 then
        { events := ev ++ [Event.call call]
          statuses := ["Connecting to server...", "Generating email content...",
            "Sending email...", "✅ Email sent!"]
          activeDuring := some "email", activeAfter := none, errored := false }
      else
        { events := ev ++ [Event.call call]
          statuses := ["Connecting to server...", "Generating email content...",
            "Sending email...", "❌ Failed to send email."]
          activeDuring := some "email", activeAfter := none, errored := true }

namespace Editor

/-- The closed set of action types of the AutomationEditor
(`src/unnamed/part_000`, option values of the per-action select). -/
inductive ActionType where
  | create_task | send_email | update_inventory | add_to_schedule | webhook
deriving DecidableEq, Repr

/-- The closed set of trigger types (option values of the trigger select). -/
inductive TriggerType where
  | new_customer | job_status_updated
deriving DecidableEq, Repr

/-- One action of an automation: numeric id (a `Date.now()` value),
type tag, and its loosely-keyed config mapping. -/
structure Action where
  id : Nat
  action_type : ActionType
  action_config : List (String × String)
deriving DecidableEq, Repr

/-- A draft automation as the editor holds it (`id` absent on unsaved
drafts, untouched by every editing operation). -/
structure Automation where
  id : Option Nat
  name : String
  trigger_type : TriggerType
  trigger_config : List (String × String)
  actions : List Action
  is_enabled : Bool
deriving DecidableEq, Repr

/-- `EMPTY_AUTOMATION` of `src/unnamed/part_000` (lines 12–22), with the
module-load `Date.now()` value passed in as `t0`. -/
def EMPTY_AUTOMATION (t0 : Nat) : Automation :=
  { id := none, name := "", trigger_type := TriggerType.new_customer,
    trigger_config := [],
    actions := [{ id := t0, action_type := ActionType.create_task, action_config := [] }],
    is_enabled := true }

/-- JS spread-update `{ ...m, [k]: v }` on an object used as a string map:
an existing key keeps its position and gets the new value, a new key is
appended. -/
def setKey (m : List (String × String)) (k v : String) : List (String × String) :=
  if m.any (fun p => p.1 == k) then
    m.map fun p => if p.1 = k then (k, v) else p
  else
    m ++ [(k, v)]

/-- `handleFieldChange('name', v)`. -/
def setAutomationName (a : Automation) (v : String) : Automation := { a with name := v }

/-- `handleFieldChange('trigger_type', v)`. -/
def setTriggerType (a : Automation) (v : TriggerType) : Automation :=
  { a with trigger_type := v }

/-- `handleFieldChange('is_enabled', v)`. -/
def setIsEnabled (a : Automation) (v : Bool) : Automation := { a with is_enabled := v }

/-- `handleConfigChange('trigger_config', k, v)` (lines 37–42). -/
def handleConfigChange (a : Automation) (k v : String) : Automation :=
  { a with trigger_config := setKey a.trigger_config k v }

/-- `handleActionChange(actionId, 'action_type', v)` (lines 44–54): the
matching action gets the new type and a reset (empty) config; every other
action is returned unchanged. -/
def handleActionChange (a : Automation) (actionId : Nat) (v : ActionType) : Automation :=
  { a with actions := a.actions.map fun action =>
      if action.id = actionId then
        { action with action_type := v, action_config := [] }
      else action }

/-- `handleActionConfigChange(actionId, configField, value)` (lines 56–72). -/
def handleActionConfigChange (a : Automation) (actionId : Nat) (k v : String) :
    Automation :=
  { a with actions := a.actions.map fun action =>
      if action.id = actionId then
        { action with action_config := setKey action.action_config k v }
      else action }

/-- `addAction` (lines 74–84), with the `Date.now()` value passed in as `t`:
appends a fresh `create_task` action with empty config. -/
def addAction (a : Automation) (t : Nat) : Automation :=
  { a with actions := a.actions ++
      [{ id := t, action_type := ActionType.create_task, action_config := [] }] }

/-- `removeAction(actionId)` (lines 86–91): filters out every action whose id
matches. -/
def removeAction (a : Automation) (actionId : Nat) : Automation :=
  { a with actions := a.actions.filter fun action => action.id != actionId }

/-- A removal gesture as the UI offers it: the remove button is rendered only
when `automation.actions.length > 1` (line 190), so with one action the
draft is left unchanged. -/
def uiRemoveAction (a : Automation) (actionId : Nat) : Automation :=
  if 1 < a.actions.length then removeAction a actionId else a

/-- One editing operation the rendered AutomationEditor can perform on the
draft.  `addStep` carries the clock guarantee of `Date.now()`: the new value
is at least every id previously generated (ids in the list are earlier
`Date.now()` results), but may coincide with one returned in the same
millisecond. -/
inductive EStep : Automation → Automation → Prop where
  | nameChange (a : Automation) (v : String) : EStep a (setAutomationName a v)
  | triggerChange (a : Automation) (v : TriggerType) : EStep a (setTriggerType a v)
  | enabledChange (a : Automation) (v : Bool) : EStep a (setIsEnabled a v)
  | triggerCfgChange (a : Automation) (v : String) :
      EStep a (handleConfigChange a "to_status" v)
  | actionTypeChange (a : Automation) (i : Nat) (v : ActionType) :
      EStep a (handleActionChange a i v)
  | actionCfgChange (a : Automation) (i : Nat) (k v : String) :
      EStep a (handleActionConfigChange a i k v)
  | addStep (a : Automation) (t : Nat)
      (ht : ∀ j ∈ a.actions.map Action.id, j ≤ t) : EStep a (addAction a t)
  | removeStep (a : Automation) (i : Nat) : EStep a (uiRemoveAction a i)

/-- The editing operations under a strictly fresh clock: every `Date.now()`
an add observes is strictly larger than every id already in the list
(consecutive adds in distinct milliseconds). -/
inductive EStepFresh : Automation → Automation → Prop where
  | nameChange (a : Automation) (v : String) : EStepFresh a (setAutomationName a v)
  | triggerChange (a : Automation) (v : TriggerType) : EStepFresh a (setTriggerType a v)
  | enabledChange (a : Automation) (v : Bool) : EStepFresh a (setIsEnabled a v)
  | triggerCfgChange (a : Automation) (v : String) :
      EStepFresh a (handleConfigChange a "to_status" v)
  | actionTypeChange (a : Automation) (i : Nat) (v : ActionType) :
      EStepFresh a (handleActionChange a i v)
  | actionCfgChange (a : Automation) (i : Nat) (k v : String) :
      EStepFresh a (handleActionConfigChange a i k v)
  | addStep (a : Automation) (t : Nat)
      (ht : ∀ j ∈ a.actions.map Action.id, j < t) : EStepFresh a (addAction a t)
  | removeStep (a : Automation) (i : Nat) : EStepFresh a (uiRemoveAction a i)

/-- Reflexive-transitive closure of a step relation: the drafts reachable
from a starting draft. -/
inductive Reach (step : Automation → Automation → Prop) :
    Automation → Automation → Prop where
  | refl (a : Automation) : Reach step a a
  | tail {a b c : Automation} : Reach step a b → step b c → Reach step a c

end Editor

/-- The exact value of the IEEE-754 binary64 float nearest to the decimal
literal `1.005` (JS numbers are binary64; `201/200` is not representable:
`201·2^52/200 = 4526117625507348.48`, which rounds to `4526117625507348`, so
the stored value is `4526117625507348/2^52`, slightly below `1.005`). -/
def double1005 : ℚ := 4526117625507348 / 4503599627370496

/-- The customer of the spec's worked Export-to-Sheets example:
`{id:1, name:"Acme"}` (no address given; an absent address renders as
`'N/A'`, which the empty string also does under `|| 'N/A'`). -/
def acmeCustomer : CustomerInfo := { id := 1, name := "Acme", address := "" }

/-- The job of the spec's worked Export-to-Sheets example, its `ocSets`
literal `1.005` embedded as the binary64 value the program holds. -/
def jobE1 : EstimateRecord :=
  { id := 1, customerId := 1, estimateNumber := "E-1", status := "paid",
    createdAt := 0,
    costsData := { finalQuote := 500 },
    calcData := { totalBoardFeetWithWaste := 100, ocSets := double1005,
                  ccSets := 1 / 2 },
    estimatePdf := none, materialOrderPdf := none, invoicePdf := none }

/-- A concrete environment: no cached client, a connect attempt succeeds
with client `0`, every tool call resolves. -/
def env0 : Env :=
  { mcp := none, connectClient := some 0, toolOk := fun _ => true,
    nowStr := "1/1/2026, 12:00:00 PM", todayStr := "1/1/2026",
    isoDate := "2026-01-01", fmtDate := fun _ => "1/1/2026" }

/-- A concrete environment in which the connect attempt throws. -/
def envConnectFail : Env :=
  { mcp := none, connectClient := none, toolOk := fun _ => true,
    nowStr := "1/1/2026, 12:00:00 PM", todayStr := "1/1/2026",
    isoDate := "2026-01-01", fmtDate := fun _ => "1/1/2026" }


/-- Claim-side definition (from the spec's words, for comparison with the
source's folded computation): the sum of `finalQuote` over the jobs whose
status equals `st`. -/
def specStatusTotal (jobs : List EstimateRecord) (st : String) : ℚ :=
  ((jobs.filter fun j => j.status = st).map fun j => j.costsData.finalQuote).sum

/-- Claim-side definition (from the spec's words): a job's one-line summary —
estimate number, customer name or `'N/A'`, status, formatted quote amount. -/
def specJobLine (customers : List CustomerInfo) (job : EstimateRecord) : String :=
  "- " ++ job.estimateNumber ++ " for "
    ++ jsStrOr ((customers.find? fun c => c.id = job.customerId).map CustomerInfo.name) "N/A"
    ++ " - Status: " ++ job.status ++ " - $" ++ toFixed2Str job.costsData.finalQuote

/-- Claim-side definition: the report text as a function of the generation
timestamp, the total customer count, the total job count, total revenue,
outstanding receivables, and the recent-job summary lines — so that proving
the source's report equal to this template shows the report contains exactly
those quantities. -/
def reportTemplate (now : String) (nCustomers nJobs : Nat)
    (revenue outstanding : ℚ) (lines : List String) : String :=
  "\n# Business Summary Report\n\nGenerated on: " ++ now
    ++ "\n\n## Key Metrics\n- **Total Customers:** " ++ toString nCustomers
    ++ "\n- **Total Jobs Logged:** " ++ toString nJobs
    ++ "\n- **Total Revenue (Paid):** $" ++ toFixed2Str revenue
    ++ "\n- **Outstanding A/R (Invoiced):** $" ++ toFixed2Str outstanding
    ++ "\n\n## Recent Jobs\n" ++ String.intercalate "\n" lines
    ++ "\n        "

namespace Editor

/-- Start of the duplicate-id scenario: the editor opened on a new draft with
the module-load `Date.now()` equal to `0`. -/
def cexA0 : Automation := EMPTY_AUTOMATION 0

/-- After one "Add another action" click at millisecond `1`. -/
def cexA1 : Automation := addAction cexA0 1

/-- After a second "Add another action" click in the same millisecond `1`:
two actions now share the id `1`. -/
def cexA2 : Automation := addAction cexA1 1

/-- After removing the first action (three actions present, so the remove
button is rendered). -/
def cexA3 : Automation := uiRemoveAction cexA2 0

/-- After removing an action with id `1`: the filter deletes *both* actions
carrying the duplicated id, leaving the action list empty. -/
def cexA4 : Automation := uiRemoveAction cexA3 1

end Editor

/-! ## Theorems -/

/-- The rounding of the example's `ocSets`: `Number((1.005).toFixed(2))` is
`1`, because the stored binary64 value is slightly below `1.005`. -/
theorem toFixed2_double1005 : toFixed2 double1005 = 1 := by
  norm_num [toFixed2, fixed2Int, double1005]

/-- `Number((0.5).toFixed(2))` is `0.5` (0.5 is exactly representable). -/
theorem toFixed2_half : toFixed2 (2⁻¹ : ℚ) = 2⁻¹ := by
  norm_num [toFixed2, fixed2Int]

/-- Claim C9: the first call of the MCP client accessor performs a connect
through the fixed proxy-wrapped server URL and caches the client; a call
finding the cache set returns the same cached client object with no further
connect, leaving the cache unchanged. -/
theorem c9_client_memoized (c : Client) (conn : Option Client) :
    getMcpClient (some c) none = ([Event.connect mcpConnectUrl], some c, some c)
    ∧ getMcpClient conn ((getMcpClient (some c) none).2.2) = ([], some c, some c)
    ∧ mcpConnectUrl = mcpProxyUrl ++ mcpServerUrl :=
  ⟨rfl, rfl, rfl⟩

/-- Claim C10: when the connect attempt throws, the singleton cache is left
unset (it is written only after a successful connect), so the next call
performs a fresh connect attempt instead of returning a broken client. -/
theorem c10_failed_connect_not_cached (c : Client) :
    getMcpClient none none = ([Event.connect mcpConnectUrl], none, none)
    ∧ getMcpClient (some c) ((getMcpClient none none).2.2)
        = ([Event.connect mcpConnectUrl], some c, some c) :=
  ⟨rfl, rfl⟩

/-- Claim C7, counterexample: on the spec's example input (one customer
`Acme`, one job with `ocSets = 1.005`), the single exported record's
`"Open Cell Sets"` value is `1`, not `1.01`: the binary64 value of the
literal `1.005` is below `1.005`, so `toFixed(2)` rounds down to `"1.00"`. -/
theorem c7_counterexample :
    (dataForSheet [acmeCustomer] [jobE1] env0).map (List.lookup "Open Cell Sets")
      = [some (Json.num 1)]
    ∧ Json.num 1 ≠ Json.num (101 / 100 : ℚ) := by
  constructor
  · simp [dataForSheet, jobToSheetRow, jobE1, acmeCustomer, toFixed2_double1005,
      List.lookup]
  · intro h
    rw [Json.num.injEq] at h
    norm_num at h

/-- Claim C7 as amended: on the spec's example input, Export-to-Sheets
produces exactly one record, whose `"Customer Name"` is `"Acme"`, whose
`"Quote Amount"` is `500`, whose `"Closed Cell Sets"` is `0.5` — and whose
`"Open Cell Sets"` is `1` (not `1.01`), since the binary64 value of `1.005`
rounds down under `toFixed(2)`. -/
theorem c7_sheets_example_row :
    (dataForSheet [acmeCustomer] [jobE1] env0).length = 1
    ∧ (dataForSheet [acmeCustomer] [jobE1] env0).map (List.lookup "Customer Name")
        = [some (Json.str "Acme")]
    ∧ (dataForSheet [acmeCustomer] [jobE1] env0).map (List.lookup "Quote Amount")
        = [some (Json.num 500)]
    ∧ (dataForSheet [acmeCustomer] [jobE1] env0).map (List.lookup "Open Cell Sets")
        = [some (Json.num 1)]
    ∧ (dataForSheet [acmeCustomer] [jobE1] env0).map (List.lookup "Closed Cell Sets")
        = [some (Json.num (1 / 2))] := by
  refine ⟨rfl, ?_, ?_, ?_, ?_⟩
  · simp [dataForSheet, jobToSheetRow, jobE1, acmeCustomer, jsStrOr, List.lookup]
  · simp [dataForSheet, jobToSheetRow, jobE1, acmeCustomer, List.lookup]
  · simp [dataForSheet, jobToSheetRow, jobE1, acmeCustomer, toFixed2_double1005,
      List.lookup]
  · simp [dataForSheet, jobToSheetRow, jobE1, acmeCustomer, toFixed2_half,
      List.lookup]

/-- The client accessor emits no tool calls: its event trace is empty (cache
hit) or a single connect. -/
theorem getMcpClient_events (conn st : Option Client) :
    (getMcpClient conn st).1 = []
    ∨ (getMcpClient conn st).1 = [Event.connect mcpConnectUrl] := by
  rcases st with _ | c
  · rcases conn with _ | c <;> simp [getMcpClient]
  · simp [getMcpClient]

/-- Claim C1 as amended: Email-report with no configured company email shows
the informational message and performs no remote interaction at all; Export-
to-Sheets with an empty job list performs zero tool-invocation calls and
returns to idle, and shows the informational "No jobs to export." message
whenever client acquisition succeeds — but the client is acquired *before*
the empty-list check, so with an uncached client the operation still attempts
a connect to the remote server. -/
theorem c1_short_circuits (customers : List CustomerInfo)
    (jobs : List EstimateRecord) (ci : CompanyInfo) (env : Env) :
    (jsFalsyEmail ci = true →
      handleEmailReport customers jobs ci env =
        { events := [], statuses := ["Company email not set in settings."],
          activeDuring := none, activeAfter := none, errored := false })
    ∧ toolCallsOf (handleExportToSheets customers [] env) = []
    ∧ (handleExportToSheets customers [] env).activeAfter = none
    ∧ (∀ c : Client, (getMcpClient env.connectClient env.mcp).2.1 = some c →
        (handleExportToSheets customers [] env).statuses.getLast?
            = some "No jobs to export."
        ∧ (handleExportToSheets customers [] env).errored = false)
    ∧ (env.mcp = none →
        (handleExportToSheets customers [] env).events = [Event.connect mcpConnectUrl]) := by
  refine ⟨?_, ?_, ?_, ?_, ?_⟩
  · intro hf
    simp [handleEmailReport, hf]
  · rcases hg : getMcpClient env.connectClient env.mcp with ⟨ev, r, st⟩
    have hev : ev = [] ∨ ev = [Event.connect mcpConnectUrl] := by
      have h := getMcpClient_events env.connectClient env.mcp
      rw [hg] at h
      exact h
    rcases r with _ | c
    · rcases hev with rfl | rfl <;>
        simp [handleExportToSheets, hg, toolCallsOf]
    · rcases hev with rfl | rfl <;>
        simp [handleExportToSheets, hg, dataForSheet, toolCallsOf]
  · rcases hg : getMcpClient env.connectClient env.mcp with ⟨ev, r, st⟩
    rcases r with _ | c <;> simp [handleExportToSheets, hg, dataForSheet]
  · intro c hc
    rcases hg : getMcpClient env.connectClient env.mcp with ⟨ev, r, st⟩
    rw [hg] at hc
    rcases r with _ | c' <;> simp_all [handleExportToSheets, hg, dataForSheet]
  · intro hm
    rcases hcn : env.connectClient with _ | c <;>
      simp [handleExportToSheets, getMcpClient, hm, hcn, dataForSheet]

/-- Claim C1, counterexample: a first-use Export-to-Sheets call with an empty
job list still contacts the remote server — `getMcpClient` runs before the
empty-list check and performs the connect handshake — even though the
informational "No jobs to export." message is then shown and zero
tool-invocation calls are made. -/
theorem c1_counterexample :
    (handleExportToSheets [] [] env0).events = [Event.connect mcpConnectUrl]
    ∧ (handleExportToSheets [] [] env0).statuses.getLast? = some "No jobs to export."
    ∧ toolCallsOf (handleExportToSheets [] [] env0) = [] :=
  ⟨rfl, rfl, rfl⟩

/-- Claim C2: for each of the four CloudSync operations, whenever a thrown
error is caught (any step: client acquisition or a tool call), the
active-operation flag ends at the idle value `none` (the finally block) and
the last status shown is that operation's failure message. -/
theorem c2_error_resets_active (customers : List CustomerInfo)
    (jobs : List EstimateRecord) (ci : CompanyInfo) (env : Env) :
    ((handleBackupToDrive customers jobs env).errored = true →
      (handleBackupToDrive customers jobs env).activeAfter = none
      ∧ (handleBackupToDrive customers jobs env).statuses.getLast?
          = some "❌ Backup failed. Check console.")
    ∧ ((handleExportToSheets customers jobs env).errored = true →
      (handleExportToSheets customers jobs env).activeAfter = none
      ∧ (handleExportToSheets customers jobs env).statuses.getLast?
          = some "❌ Export failed. Check console.")
    ∧ ((handleCreateDocReport customers jobs env).errored = true →
      (handleCreateDocReport customers jobs env).activeAfter = none
      ∧ (handleCreateDocReport customers jobs env).statuses.getLast?
          = some "❌ Report creation failed.")
    ∧ ((handleEmailReport customers jobs ci env).errored = true →
      (handleEmailReport customers jobs ci env).activeAfter = none
      ∧ (handleEmailReport customers jobs ci env).statuses.getLast?
          = some "❌ Failed to send email.") := by
  rcases hg : getMcpClient env.connectClient env.mcp with ⟨ev, r, st⟩
  refine ⟨?_, ?_, ?_, ?_⟩
  · intro he
    rcases r with _ | c
    · simp [handleBackupToDrive, hg]
    · by_cases h0 : env.toolOk 0
      · by_cases h1 : env.toolOk 1
        · simp [handleBackupToDrive, hg, h0, h1] at he
        · simp [handleBackupToDrive, hg, h0, h1]
      · simp [handleBackupToDrive, hg, h0]
  · intro he
    rcases r with _ | c
    · simp [handleExportToSheets, hg]
    · by_cases hr : (dataForSheet customers jobs env).length = 0
      · simp [handleExportToSheets, hg, hr] at he
      · by_cases h0 : env.toolOk 0
        · simp [handleExportToSheets, hg, hr, h0] at he
        · simp [handleExportToSheets, hg, hr, h0]
  · intro he
    rcases r with _ | c
    · simp [handleCreateDocReport, hg]
    · by_cases h0 : env.toolOk 0
      · simp [handleCreateDocReport, hg, h0] at he
      · simp [handleCreateDocReport, hg, h0]
  · intro he
    by_cases hf : jsFalsyEmail ci
    · simp [handleEmailReport, hf] at he
    · rcases r with _ | c
      · simp [handleEmailReport, hf, hg]
      · by_cases h0 : env.toolOk 0
        · simp [handleEmailReport, hf, hg, h0] at he
        · simp [handleEmailReport, hf, hg, h0]

/-- Claim C3: a successful Backup-to-Drive on non-empty inputs issues exactly
two file-creation tool calls, in order: first the customers file
`customers-backup-<ISO date>.json`, then the jobs file
`jobs-backup-<ISO date>.json` (both through the Drive file-creation tool),
and no object of the serialized jobs payload carries any of the keys
`estimatePdf`, `materialOrderPdf`, `invoicePdf`. -/
theorem c3_backup_two_calls (customers : List CustomerInfo)
    (jobs : List EstimateRecord) (env : Env)
    (hc : customers ≠ []) (hj : jobs ≠ [])
    (hok : (handleBackupToDrive customers jobs env).errored = false) :
    toolCallsOf (handleBackupToDrive customers jobs env)
      = [ToolCall.createFileFromText ("customers-backup-" ++ env.isoDate ++ ".json")
           (customersDoc customers),
         ToolCall.createFileFromText ("jobs-backup-" ++ env.isoDate ++ ".json")
           (jobsBackupDoc jobs)]
    ∧ (toolCallsOf (handleBackupToDrive customers jobs env)).map toolName
      = ["google_drive_create_file_from_text", "google_drive_create_file_from_text"]
    ∧ jobsBackupDoc jobs = Json.arr ((jobs.map stripJobForBackup).map Json.obj)
    ∧ ∀ flds ∈ jobs.map stripJobForBackup, ∀ p ∈ flds,
        p.1 ≠ "estimatePdf" ∧ p.1 ≠ "materialOrderPdf" ∧ p.1 ≠ "invoicePdf" := by
  rcases hg : getMcpClient env.connectClient env.mcp with ⟨ev, r, st⟩
  have hev : ev = [] ∨ ev = [Event.connect mcpConnectUrl] := by
    have h := getMcpClient_events env.connectClient env.mcp
    rw [hg] at h
    exact h
  have hstrip : ∀ flds ∈ jobs.map stripJobForBackup, ∀ p ∈ flds,
      p.1 ≠ "estimatePdf" ∧ p.1 ≠ "materialOrderPdf" ∧ p.1 ≠ "invoicePdf" := by
    intro flds hf p hp
    obtain ⟨j, _, rfl⟩ := List.mem_map.mp hf
    have := List.mem_filter.mp hp
    simpa [Bool.and_eq_true, bne_iff_ne, and_assoc] using this.2
  rcases r with _ | c
  · simp [handleBackupToDrive, hg] at hok
  · by_cases h0 : env.toolOk 0
    · by_cases h1 : env.toolOk 1
      · refine ⟨?_, ?_, rfl, hstrip⟩ <;>
          rcases hev with rfl | rfl <;>
            simp [handleBackupToDrive, hg, h0, h1, toolCallsOf, toolName]
      · simp [handleBackupToDrive, hg, h0, h1] at hok
    · simp [handleBackupToDrive, hg, h0] at hok

/-- Witness for C3 at a concrete input: one customer, one job, a connect that
succeeds and tool calls that resolve. -/
theorem c3_witness :
    toolCallsOf (handleBackupToDrive [acmeCustomer] [jobE1] env0)
      = [ToolCall.createFileFromText ("customers-backup-" ++ env0.isoDate ++ ".json")
           (customersDoc [acmeCustomer]),
         ToolCall.createFileFromText ("jobs-backup-" ++ env0.isoDate ++ ".json")
           (jobsBackupDoc [jobE1])]
    ∧ (toolCallsOf (handleBackupToDrive [acmeCustomer] [jobE1] env0)).map toolName
      = ["google_drive_create_file_from_text", "google_drive_create_file_from_text"]
    ∧ jobsBackupDoc [jobE1] = Json.arr (([jobE1].map stripJobForBackup).map Json.obj)
    ∧ ∀ flds ∈ [jobE1].map stripJobForBackup, ∀ p ∈ flds,
        p.1 ≠ "estimatePdf" ∧ p.1 ≠ "materialOrderPdf" ∧ p.1 ≠ "invoicePdf" :=
  c3_backup_two_calls [acmeCustomer] [jobE1] env0
    (List.cons_ne_nil _ _) (List.cons_ne_nil _ _) rfl

/-- `x || 0` on an (exact) number is the number itself. -/
theorem jsOr0_eq (x : ℚ) : jsOr0 x = x := by
  by_cases h : x = 0 <;> simp [jsOr0, h]

/-- The JS `reduce((sum, j) => sum + f(j), init)` is `init` plus the sum of
the mapped values. -/
theorem foldl_add_eq_sum (l : List EstimateRecord) (f : EstimateRecord → ℚ) :
    ∀ init : ℚ, l.foldl (fun sum j => sum + f j) init = init + (l.map f).sum := by
  induction l with
  | nil => intro init; simp
  | cons x xs ih =>
    intro init
    simp only [List.foldl_cons, List.map_cons, List.sum_cons, ih]
    ring

/-- Claim C6: the generated business report is exactly the template
instantiated with the generation timestamp, the total customer count, the
total job count, total revenue (the sum of `finalQuote` over jobs with
status `'paid'`), outstanding receivables (the sum over status
`'invoiced'`), and the one-line summaries of the first `min 5 n` jobs of the
list (the spec's "up to 5 most-recent jobs", under the caller's
most-recent-first ordering). -/
theorem c6_report_contents (customers : List CustomerInfo)
    (jobs : List EstimateRecord) (now : String) :
    generateReportContent customers jobs now
      = reportTemplate now customers.length jobs.length
          (specStatusTotal jobs "paid") (specStatusTotal jobs "invoiced")
          ((jobs.take 5).map (specJobLine customers))
    ∧ ((jobs.take 5).map (specJobLine customers)).length = min 5 jobs.length := by
  have hline : recentJobLine customers = specJobLine customers := rfl
  have h1 : (jobs.filter fun j => j.status = "paid").foldl
      (fun sum j => sum + jsOr0 j.costsData.finalQuote) 0
      = specStatusTotal jobs "paid" := by
    rw [foldl_add_eq_sum]
    simp [specStatusTotal, jsOr0_eq]
  have h2 : (jobs.filter fun j => j.status = "invoiced").foldl
      (fun sum j => sum + jsOr0 j.costsData.finalQuote) 0
      = specStatusTotal jobs "invoiced" := by
    rw [foldl_add_eq_sum]
    simp [specStatusTotal, jsOr0_eq]
  constructor
  · simp only [generateReportContent, reportTemplate, h1, h2, hline]
  · simp [List.length_take]

namespace Editor

/-- Claim C4: each targeted-edit operation preserves the action list's
length; the action matching the id gets exactly the described update
(for a type change: the new type and an emptied `action_config`); every
non-targeted action is unchanged; and the name/trigger/enabled/
trigger-config field changes leave the action list untouched. -/
theorem c4_editor_frame (a : Automation) (i : Nat) (ty : ActionType)
    (k v s tv : String) (tt : TriggerType) (b : Bool) :
    ((handleActionChange a i ty).actions.length = a.actions.length
      ∧ List.Forall₂ (fun old new =>
          (old.id = i → new = { old with action_type := ty, action_config := [] })
          ∧ (old.id ≠ i → new = old)) a.actions (handleActionChange a i ty).actions)
    ∧ ((handleActionConfigChange a i k v).actions.length = a.actions.length
      ∧ List.Forall₂ (fun old new =>
          (old.id = i → new = { old with action_config := setKey old.action_config k v })
          ∧ (old.id ≠ i → new = old)) a.actions (handleActionConfigChange a i k v).actions)
    ∧ (setAutomationName a s).actions = a.actions
    ∧ (setTriggerType a tt).actions = a.actions
    ∧ (setIsEnabled a b).actions = a.actions
    ∧ (handleConfigChange a k tv).actions = a.actions := by
  refine ⟨⟨by simp [handleActionChange], ?_⟩,
    ⟨by simp [handleActionConfigChange], ?_⟩, rfl, rfl, rfl, rfl⟩
  · simp only [handleActionChange]
    rw [List.forall₂_map_right_iff, List.forall₂_same]
    intro x hx
    by_cases h : x.id = i <;> simp [h]
  · simp only [handleActionConfigChange]
    rw [List.forall₂_map_right_iff, List.forall₂_same]
    intro x hx
    by_cases h : x.id = i <;> simp [h]

/-- A type change leaves every action's id in place. -/
theorem ids_handleActionChange (a : Automation) (i : Nat) (v : ActionType) :
    (handleActionChange a i v).actions.map Action.id = a.actions.map Action.id := by
  simp only [handleActionChange, List.map_map]
  refine List.map_congr_left ?_
  intro x hx
  by_cases h : x.id = i <;> simp [h]

/-- A config edit leaves every action's id in place. -/
theorem ids_handleActionConfigChange (a : Automation) (i : Nat) (k v : String) :
    (handleActionConfigChange a i k v).actions.map Action.id
      = a.actions.map Action.id := by
  simp only [handleActionConfigChange, List.map_map]
  refine List.map_congr_left ?_
  intro x hx
  by_cases h : x.id = i <;> simp [h]

/-- One fresh-clock editor step preserves distinctness of the action ids. -/
theorem estepFresh_nodup {a b : Automation} (h : EStepFresh a b)
    (hn : (a.actions.map Action.id).Nodup) : (b.actions.map Action.id).Nodup := by
  cases h with
  | nameChange v => exact hn
  | triggerChange v => exact hn
  | enabledChange v => exact hn
  | triggerCfgChange v => exact hn
  | actionTypeChange i v => rw [ids_handleActionChange]; exact hn
  | actionCfgChange i k v => rw [ids_handleActionConfigChange]; exact hn
  | addStep t ht =>
    simp only [addAction, List.map_append, List.map_cons, List.map_nil]
    rw [List.nodup_append]
    refine ⟨hn, List.nodup_singleton t, ?_⟩
    intro j hj
    simp only [List.mem_singleton]
    exact Nat.ne_of_lt (ht j hj)
  | removeStep i =>
    by_cases hl : 1 < a.actions.length
    · have hfs : (uiRemoveAction a i).actions
          = a.actions.filter fun x => x.id != i := by
        simp [uiRemoveAction, hl, removeAction]
      rw [hfs]
      exact ((List.filter_sublist a.actions).map Action.id).nodup hn
    · have hid : uiRemoveAction a i = a := by simp [uiRemoveAction, hl]
      rw [hid]
      exact hn

/-- A removal gesture from a draft with distinct ids and at least one action
leaves at least one action: with one action the button is not rendered; with
more, the filter deletes exactly one action. -/
theorem uiRemove_ne_nil (a : Automation) (i : Nat)
    (hn : (a.actions.map Action.id).Nodup) (hne : a.actions ≠ []) :
    (uiRemoveAction a i).actions ≠ [] := by
  by_cases hl : 1 < a.actions.length
  · have hfs : (uiRemoveAction a i).actions
        = a.actions.filter fun x => x.id != i := by
      simp [uiRemoveAction, hl, removeAction]
    rw [hfs]
    rcases hac : a.actions with _ | ⟨x, xs⟩
    · rw [hac] at hl; simp at hl
    · rcases xs with _ | ⟨y, ys⟩
      · rw [hac] at hl; simp at hl
      · rw [hac] at hn
        by_cases hx : x.id = i
        · have hy : y.id ≠ i := by
            rw [List.map_cons, List.nodup_cons] at hn
            intro hcon
            exact hn.1 (by simp [hx, hcon])
          simp [List.filter_cons, hx, hy]
        · simp [List.filter_cons, hx]
  · have hid : uiRemoveAction a i = a := by simp [uiRemoveAction, hl]
    rw [hid]
    exact hne

/-- Along any fresh-clock editing run from a draft with distinct action ids
and a non-empty action list, both properties are maintained. -/
theorem reachFresh_inv (a b : Automation) (hr : Reach EStepFresh a b)
    (hn : (a.actions.map Action.id).Nodup) (hne : a.actions ≠ []) :
    (b.actions.map Action.id).Nodup ∧ b.actions ≠ [] := by
  induction hr with
  | refl => exact ⟨hn, hne⟩
  | tail hab hst ih =>
    obtain ⟨hn', hne'⟩ := ih
    refine ⟨estepFresh_nodup hst hn', ?_⟩
    cases hst with
    | nameChange v => exact hne'
    | triggerChange v => exact hne'
    | enabledChange v => exact hne'
    | triggerCfgChange v => exact hne'
    | actionTypeChange i v =>
      simp only [handleActionChange, ne_eq, List.map_eq_nil_iff]
      exact hne'
    | actionCfgChange i k v =>
      simp only [handleActionConfigChange, ne_eq, List.map_eq_nil_iff]
      exact hne'
    | addStep t ht => simp [addAction]
    | removeStep i => exact uiRemove_ne_nil _ i hn' hne'

end Editor

namespace Editor

/-- Along any fresh-clock editing run, distinctness of the action ids is
preserved. -/
theorem reachFresh_nodup (a b : Automation) (hr : Reach EStepFresh a b)
    (hn : (a.actions.map Action.id).Nodup) : (b.actions.map Action.id).Nodup := by
  induction hr with
  | refl => exact hn
  | tail hab hst ih => exact estepFresh_nodup hst ih

/-- Claim C5 as amended: from any draft whose action ids are pairwise
distinct (as every add in a distinct millisecond keeps them) and whose
action list is non-empty, every draft reachable through the editor's
operations keeps at least one action; and a removal gesture is a no-op when
exactly one action remains (the remove button is not rendered). -/
theorem c5_min_one_action :
    (∀ a b : Automation, (a.actions.map Action.id).Nodup → a.actions ≠ [] →
        Reach EStepFresh a b → b.actions ≠ [])
    ∧ (∀ (a : Automation) (i : Nat), a.actions.length = 1 → uiRemoveAction a i = a) := by
  constructor
  · intro a b hn hne hr
    exact (reachFresh_inv a b hr hn hne).2
  · intro a i h
    simp [uiRemoveAction, h]

/-- Claim C5, counterexample: two "Add action" clicks in the same
millisecond (`Date.now()` returning `1` twice) give two actions the same id;
removing the first action and then an action with the duplicated id empties
the list: the zero-action draft `cexA4` is reachable from a fresh editor. -/
theorem c5_counterexample :
    Reach EStep cexA0 cexA4 ∧ cexA4.actions = [] := by
  refine ⟨?_, rfl⟩
  exact Reach.tail (Reach.tail (Reach.tail (Reach.tail (Reach.refl cexA0)
    (EStep.addStep cexA0 1 (by decide))) (EStep.addStep cexA1 1 (by decide)))
    (EStep.removeStep cexA2 0)) (EStep.removeStep cexA3 1)

/-- Witness for C5 at a concrete run: a fresh add from the default draft
keeps the list non-empty, and a removal gesture on the one-action default
draft changes nothing. -/
theorem c5_witness :
    (addAction (EMPTY_AUTOMATION 0) 1).actions ≠ []
    ∧ uiRemoveAction (EMPTY_AUTOMATION 0) 0 = EMPTY_AUTOMATION 0 :=
  ⟨c5_min_one_action.1 (EMPTY_AUTOMATION 0) _ (by decide) (by decide)
      (Reach.tail (Reach.refl _) (EStepFresh.addStep (EMPTY_AUTOMATION 0) 1 (by decide))),
    c5_min_one_action.2 (EMPTY_AUTOMATION 0) 0 (by decide)⟩

/-- Claim C8 as amended: the default draft's single action trivially has
pairwise-distinct ids, and the ids stay pairwise distinct along every
editing run in which each `Date.now()` observed by an add is strictly larger
than every id already in the list (adds in distinct milliseconds). -/
theorem c8_ids_nodup :
    (∀ t0 : Nat, ((EMPTY_AUTOMATION t0).actions.map Action.id).Nodup)
    ∧ (∀ a b : Automation, (a.actions.map Action.id).Nodup →
        Reach EStepFresh a b → (b.actions.map Action.id).Nodup) := by
  constructor
  · intro t0
    simp [EMPTY_AUTOMATION]
  · intro a b hn hr
    exact reachFresh_nodup a b hr hn

/-- Claim C8, counterexample: after two "Add action" clicks in the same
millisecond, the reachable draft `cexA2` carries two actions with the same
id — the ids are not pairwise distinct. -/
theorem c8_counterexample :
    Reach EStep cexA0 cexA2 ∧ ¬ (cexA2.actions.map Action.id).Nodup := by
  refine ⟨?_, by decide⟩
  exact Reach.tail (Reach.tail (Reach.refl cexA0)
    (EStep.addStep cexA0 1 (by decide))) (EStep.addStep cexA1 1 (by decide))

/-- Witness for C8 at a concrete run: one fresh add from the default draft
keeps the ids pairwise distinct. -/
theorem c8_witness :
    ((addAction (EMPTY_AUTOMATION 0) 1).actions.map Action.id).Nodup :=
  c8_ids_nodup.2 (EMPTY_AUTOMATION 0) _ (by decide)
    (Reach.tail (Reach.refl _) (EStepFresh.addStep (EMPTY_AUTOMATION 0) 1 (by decide)))

/-- Witness for C4 at a concrete draft: a type change keeps the two-action
list's length, and a name change leaves the actions untouched. -/
theorem c4_witness :
    (handleActionChange cexA1 1 ActionType.webhook).actions.length
        = cexA1.actions.length
    ∧ (setAutomationName cexA1 "weekly digest").actions = cexA1.actions :=
  ⟨(c4_editor_frame cexA1 1 ActionType.webhook "url" "https://example.test"
      "weekly digest" "paid" TriggerType.job_status_updated false).1.1,
    (c4_editor_frame cexA1 1 ActionType.webhook "url" "https://example.test"
      "weekly digest" "paid" TriggerType.job_status_updated false).2.2.1⟩

end Editor

/-- Witness for C1 at concrete inputs: an absent company email short-circuits
with no events; an empty-jobs export performs no tool call and ends on the
informational message (after the first-use connect). -/
theorem c1_witness :
    handleEmailReport [] [] { email := none } env0 =
      { events := [], statuses := ["Company email not set in settings."],
        activeDuring := none, activeAfter := none, errored := false }
    ∧ toolCallsOf (handleExportToSheets [] [] env0) = []
    ∧ (handleExportToSheets [] [] env0).statuses.getLast?
        = some "No jobs to export." :=
  ⟨(c1_short_circuits [] [] { email := none } env0).1 rfl,
    (c1_short_circuits [] [] { email := none } env0).2.1,
    ((c1_short_circuits [] [] { email := none } env0).2.2.2.1 0 rfl).1⟩

/-- Witness for C2 at concrete inputs: with a failing connect, backup ends
idle with its failure message and the email report ends with its failure
message. -/
theorem c2_witness :
    (handleBackupToDrive [] [] envConnectFail).activeAfter = none
    ∧ (handleBackupToDrive [] [] envConnectFail).statuses.getLast?
        = some "❌ Backup failed. Check console."
    ∧ (handleEmailReport [] [] { email := some "boss@acme.test" } envConnectFail).statuses.getLast?
        = some "❌ Failed to send email." :=
  ⟨((c2_error_resets_active [] [] { email := some "boss@acme.test" } envConnectFail).1 rfl).1,
    ((c2_error_resets_active [] [] { email := some "boss@acme.test" } envConnectFail).1 rfl).2,
    ((c2_error_resets_active [] [] { email := some "boss@acme.test" } envConnectFail).2.2.2 rfl).2⟩
